import Mathlib

/-!
Verification development for `src/dosenv.py` (class `LoadTester`).

The Python source is shallowly embedded as follows:

* `_make_request` (lines 71-165) becomes `make_request_from` / `make_request`.
  Wall-clock time is abstracted: `dur rc` is the elapsed time of attempt
  number `rc` (the value of `time.time() - start_time` observed when that
  attempt finishes), and `running rc` is the value of `self.running` observed
  when attempt `rc` is entered (line 73).  Attempt outcomes are abstracted by
  `outcome rc : AttemptOutcome`: either a numeric HTTP status code or a raised
  exception.  Exception dispatch over the `except` clauses of lines 99-165 is
  embedded in `dispatch`, using aiohttp's class hierarchy (in particular,
  `aiohttp.ClientProxyConnectionError` is a subclass of
  `aiohttp.ClientConnectorError`, so the tuple of the clause at line 114
  already catches proxy-connection failures).
* `_update_stats` (lines 188-203) becomes `update_stats`; Python dicts become
  association lists in insertion order (which is how Python dicts iterate).
* the worker loop (`_worker`, lines 167-186), the producer loop of `run`
  (lines 269-272) and the shared `running` flag become the small-step system
  `step` on `SysState`; an execution is a list of events folded by
  `runTrace`.  `asyncio.Queue.join` (line 275) returns exactly when the
  queue's count of unfinished tasks (incremented by `put`, decremented by
  `task_done`) reaches zero, which `joinReady` captures.
* the warmup/reset/timestamp structure of `run` (lines 211-284) becomes
  `run_model`, and `_print_results` (lines 286-320) becomes `print_results`.
-/

namespace Dosenv

/-! ### Result values (the dictionaries returned by `_make_request`) -/

/-- The `status_code` field of a result dictionary: either a numeric HTTP
status or one of the sentinel strings used by `_make_request`. -/
inductive StatusCode where
  | code (n : Nat)
  | TIMEOUT
  | CONNECTION_ERROR
  | PROXY_ERROR
  | ERROR
  deriving DecidableEq, Repr

/-- Python `str(result['status_code'])` as used at line 192. -/
def StatusCode.toStr : StatusCode → String
  | .code n => toString n
  | .TIMEOUT => "TIMEOUT"
  | .CONNECTION_ERROR => "CONNECTION_ERROR"
  | .PROXY_ERROR => "PROXY_ERROR"
  | .ERROR => "ERROR"

/-- The exception classes distinguished by the `except` clauses of
`_make_request`, plus a catch-all for any other exception class. -/
inductive ExcCls where
  | timeoutError
  | clientConnectorError
  | serverConnectionError
  | connectionError
  | clientProxyConnectionError
  | clientResponseError (status : Nat) (message : String)
  | otherExc (name : String)
  deriving DecidableEq, Repr

/-- Python `type(e).__name__` for each modelled exception class. -/
def ExcCls.pyName : ExcCls → String
  | .timeoutError => "TimeoutError"
  | .clientConnectorError => "ClientConnectorError"
  | .serverConnectionError => "ServerConnectionError"
  | .connectionError => "ConnectionError"
  | .clientProxyConnectionError => "ClientProxyConnectionError"
  | .clientResponseError _ _ => "ClientResponseError"
  | .otherExc n => n

/-- Matches `except asyncio.TimeoutError` (line 99). -/
def ExcCls.matchesTimeout : ExcCls → Bool
  | .timeoutError => true
  | _ => false

/-- Matches `except (aiohttp.ClientConnectorError, aiohttp.ServerConnectionError,
ConnectionError)` (line 114).  In aiohttp's exception hierarchy
`ClientProxyConnectionError` is a subclass of `ClientConnectorError`, so this
tuple also matches proxy-connection failures. -/
def ExcCls.matchesConnTuple : ExcCls → Bool
  | .clientConnectorError => true
  | .serverConnectionError => true
  | .connectionError => true
  | .clientProxyConnectionError => true
  | _ => false

/-- Matches `except aiohttp.ClientProxyConnectionError` (line 129). -/
def ExcCls.matchesProxy : ExcCls → Bool
  | .clientProxyConnectionError => true
  | _ => false

/-- The `except` clause of `_make_request` that a raised exception reaches,
testing the clauses in source order exactly as Python does. -/
inductive Clause where
  | timeoutClause
  | connClause
  | proxyClause
  | responseClause (status : Nat) (message : String)
  | genericClause
  deriving DecidableEq, Repr

/-- Python's `except`-clause resolution for the handler chain of
`_make_request` (lines 99, 114, 129, 144, 155), in source order. -/
def dispatch (cls : ExcCls) : Clause :=
  if cls.matchesTimeout then .timeoutClause
  else if cls.matchesConnTuple then .connClause
  else if cls.matchesProxy then .proxyClause
  else
    match cls with
    | .clientResponseError st m => .responseClause st m
    | _ => .genericClause

/-- Whether the clause retries (lines 101, 116, 131): the timeout, connection
and proxy handlers retry, the response and generic handlers do not. -/
def Clause.retryable : Clause → Bool
  | .timeoutClause => true
  | .connClause => true
  | .proxyClause => true
  | _ => false

/-- The outcome of one HTTP attempt inside the `try` body: either a response
with a numeric status code, or a raised exception with its `str(e)` text. -/
inductive AttemptOutcome where
  | ok (status : Nat)
  | exc (cls : ExcCls) (msg : String)
  deriving DecidableEq, Repr

/-- The result dictionary built by `_make_request`. -/
structure Result where
  request_id : Nat
  status_code : StatusCode
  response_time : ℚ
  success : Bool
  error_type : Option String := none
  error : Option String := none
  deriving DecidableEq, Repr

/-- The dictionary returned at lines 93-98 for a response with status code
`status`: `success` is `200 <= status_code < 400`. -/
def okResult (request_id status : Nat) (elapsed : ℚ) : Result :=
  { request_id := request_id
    status_code := .code status
    response_time := elapsed
    success := decide (200 ≤ status ∧ status < 400) }

/-- The terminal result dictionary built by the `except` clause that catches
an exception of class `cls` with text `msg`, once no further retry is taken
(lines 104-113, 119-128, 134-143, 144-154, 155-165). -/
def clauseResult (request_id : Nat) (cls : ExcCls) (msg : String) (elapsed : ℚ) : Result :=
  match dispatch cls with
  | .timeoutClause =>
      { request_id := request_id, status_code := .TIMEOUT, response_time := elapsed
        success := false, error_type := some "TimeoutError"
        error := some "Request timed out after 30 seconds" }
  | .connClause =>
      { request_id := request_id, status_code := .CONNECTION_ERROR, response_time := elapsed
        success := false, error_type := some cls.pyName, error := some msg }
  | .proxyClause =>
      { request_id := request_id, status_code := .PROXY_ERROR, response_time := elapsed
        success := false, error_type := some "ClientProxyConnectionError", error := some msg }
  | .responseClause st m =>
      { request_id := request_id, status_code := .code st, response_time := elapsed
        success := false, error_type := some "ClientResponseError"
        error := some ("HTTP " ++ toString st ++ ": " ++ m) }
  | .genericClause =>
      { request_id := request_id, status_code := .ERROR, response_time := elapsed
        success := false, error_type := some cls.pyName, error := some msg }

/-- `max_retries` (line 77). -/
def max_retries : Nat := 3

/-- `retry_delay` (line 78): 0.1 seconds. -/
def retry_delay : ℚ := 1 / 10

/-- What a call to `_make_request` produces: the returned value (`none` models
Python `None`), the backoff delays slept in order, and the number of attempts
whose `try` body was entered. -/
structure MROut where
  result : Option Result
  sleeps : List ℚ
  attempts : Nat
  deriving DecidableEq, Repr

/-- Recursion worker for `_make_request`, structurally recursive on `fuel`,
which `make_request_from` instantiates with `max_retries - retry_count` (the
number of retries still allowed).  The `fuel = 0` arm of the retry branch is
unreachable under that instantiation, because the branch is guarded by
`retry_count < max_retries`; `make_request_from_eq` below recovers the
source's self-recursive shape. -/
def make_request_go (running : Nat → Bool) (outcome : Nat → AttemptOutcome)
    (dur : Nat → ℚ) (request_id : Nat) : Nat → Nat → MROut
  | fuel, retry_count =>
    if running retry_count = false then
      { result := none, sleeps := [], attempts := 0 }
    else
      match outcome retry_count with
      | .ok status =>
          { result := some (okResult request_id status (dur retry_count))
            sleeps := [], attempts := 1 }
      | .exc cls msg =>
          if (dispatch cls).retryable = true ∧ retry_count < max_retries then
            match fuel with
            | fuel' + 1 =>
                let rest := make_request_go running outcome dur request_id fuel' (retry_count + 1)
                { result := rest.result
                  sleeps := retry_delay * 2 ^ retry_count :: rest.sleeps
                  attempts := rest.attempts + 1 }
            | 0 =>
                { result := some (clauseResult request_id cls msg (dur retry_count))
                  sleeps := [], attempts := 1 }
          else
            { result := some (clauseResult request_id cls msg (dur retry_count))
              sleeps := [], attempts := 1 }

/-- `_make_request(session, request_id, retry_count)` (lines 71-165).
`running rc` is the value of `self.running` read at line 73 on the call with
`retry_count = rc`; `outcome rc` is what attempt `rc` yields; `dur rc` is its
elapsed wall-clock time.  A retryable exception with `retry_count <
max_retries` sleeps `retry_delay * 2 ** retry_count` (lines 102, 117, 132)
and recurses with `retry_count + 1`; otherwise the matching handler's result
dictionary is returned. -/
def make_request_from (running : Nat → Bool) (outcome : Nat → AttemptOutcome)
    (dur : Nat → ℚ) (request_id : Nat) (retry_count : Nat) : MROut :=
  make_request_go running outcome dur request_id (max_retries - retry_count) retry_count

/-- `_make_request` as called by the workers (initial `retry_count = 0`). -/
def make_request (running : Nat → Bool) (outcome : Nat → AttemptOutcome)
    (dur : Nat → ℚ) (request_id : Nat) : MROut :=
  make_request_from running outcome dur request_id 0

/-! ### Statistics (`self.stats`, lines 50-59) and `_update_stats` -/

/-- A Python dict from string keys to counts, as an association list in
insertion order.  `dictGet d k` is `d.get(k, 0)`. -/
def dictGet (d : List (String × Nat)) (k : String) : Nat :=
  match d.find? (fun p => p.1 == k) with
  | some p => p.2
  | none => 0

/-- `d[k] = d.get(k, 0) + 1` on an insertion-ordered dict. -/
def dictIncr (d : List (String × Nat)) (k : String) : List (String × Nat) :=
  if d.any (fun p => p.1 == k) then
    d.map (fun p => if p.1 == k then (p.1, p.2 + 1) else p)
  else
    d ++ [(k, 1)]

/-- `self.stats` (lines 50-59). -/
structure Stats where
  total_requests : Nat
  successful : Nat
  failed : Nat
  status_codes : List (String × Nat)
  errors : List (String × Nat)
  response_times : List ℚ
  start_time : Option ℚ
  end_time : Option ℚ
  deriving DecidableEq, Repr

/-- The initial statistics dictionary (lines 50-59). -/
def initStats : Stats :=
  { total_requests := 0, successful := 0, failed := 0, status_codes := []
    errors := [], response_times := [], start_time := none, end_time := none }

/-- `_update_stats(result)` (lines 188-203; the progress print at lines
205-209 is I/O only and changes no state). -/
def update_stats (stats : Stats) (result : Result) : Stats :=
  let stats1 := { stats with total_requests := stats.total_requests + 1 }
  let status := result.status_code.toStr
  let stats2 :=
    if result.success then
      { stats1 with successful := stats1.successful + 1 }
    else
      let stats1f := { stats1 with failed := stats1.failed + 1 }
      match result.error_type with
      | some et =>
          { stats1f with
              errors := dictIncr stats1f.errors
                (et ++ ": " ++ (result.error.getD "No details")) }
      | none => stats1f
  { stats2 with
      status_codes := dictIncr stats2.status_codes status
      response_times := stats2.response_times ++ [result.response_time] }

/-- The worker's `if result: self._update_stats(result)` (lines 178-179). -/
def recordOpt (stats : Stats) (result : Option Result) : Stats :=
  match result with
  | some r => update_stats stats r
  | none => stats

/-! ### The worker pool, producer and queue as a small-step system

Each worker task (`_worker`, lines 167-186) is either at the top of its
`while self.running` loop (`idle`), inside `_make_request` about to run
attempt `rc` for identifier `id` (`busy id rc`), or returned (`exited`).
The producer is the inline loop of `run` (lines 269-272): at the top of an
iteration (`loop`), suspended on `queue.put` after passing the `running`
check (`waitingPut`), or past the loop (`finished`).  The initial 10ms
worker-startup stagger (lines 170-171) and the 100ms poll timeout only
affect scheduling, which the free interleaving of events already covers. -/

/-- The control state of one worker task. -/
inductive WPhase where
  | idle
  | busy (id : Nat) (rc : Nat)
  | exited
  deriving DecidableEq, Repr

/-- The control state of the producer loop in `run` (lines 269-272). -/
inductive PPhase where
  | loop
  | waitingPut
  | finished
  deriving DecidableEq, Repr

/-- The per-run parameters plus the behaviour of the target: `outcome id rc`
is what attempt `rc` of request `id` yields, `dur id rc` its elapsed time. -/
structure Config where
  num_requests : Nat
  concurrency : Nat
  outcome : Nat → Nat → AttemptOutcome
  dur : Nat → Nat → ℚ

/-- The shared state of a run: the `running` flag, the queue contents, the
queue's count of unfinished tasks (incremented by `put`, decremented by
`task_done`), how many identifiers the producer has put, the producer and
worker control states, and the statistics.  `recordedIds` and `dequeuedIds`
are history variables logging each `_update_stats` call and each completed
`queue.get`. -/
structure SysState where
  running : Bool
  queued : List Nat
  unfinished : Nat
  produced : Nat
  prod : PPhase
  workers : List WPhase
  stats : Stats
  recordedIds : List Nat
  dequeuedIds : List Nat
  deriving DecidableEq, Repr

/-- The state at the start of the measured phase (workers just created,
queue empty, nothing produced). -/
def initState (cfg : Config) : SysState :=
  { running := true, queued := [], unfinished := 0, produced := 0
    prod := .loop, workers := List.replicate cfg.concurrency .idle
    stats := initStats, recordedIds := [], dequeuedIds := [] }

/-- Scheduler events: a signal (`_signal_handler`, line 69, clears the
flag), one producer-loop check (line 270), one completed `queue.put`
(line 272), one poll by worker `w` (lines 173-175: check the flag, then
`get` with a 100ms timeout) and one attempt by a busy worker `w` (one
entry into `_make_request`'s body, lines 73-165). -/
inductive Ev where
  | signal
  | prodCheck
  | prodPut
  | poll (w : Nat)
  | attempt (w : Nat)
  deriving DecidableEq, Repr

/-- One small step of the system.  An event that is not enabled in the
current state leaves the state unchanged (it simply does not occur). -/
def step (cfg : Config) (s : SysState) : Ev → SysState
  | .signal => { s with running := false }
  | .prodCheck =>
      if s.prod = .loop then
        if s.running ∧ s.produced < cfg.num_requests then
          { s with prod := .waitingPut }
        else
          { s with prod := .finished }
      else s
  | .prodPut =>
      if s.prod = .waitingPut ∧ s.queued.length < 2 * cfg.concurrency then
        { s with queued := s.queued ++ [s.produced + 1]
                 produced := s.produced + 1
                 unfinished := s.unfinished + 1
                 prod := .loop }
      else s
  | .poll w =>
      match s.workers[w]? with
      | some .idle =>
          if s.running then
            match s.queued with
            | [] => s
            | id :: rest =>
                { s with queued := rest
                         workers := s.workers.set w (.busy id 0)
                         dequeuedIds := s.dequeuedIds ++ [id] }
          else
            { s with workers := s.workers.set w .exited }
      | _ => s
  | .attempt w =>
      match s.workers[w]? with
      | some (.busy id rc) =>
          if s.running = false then
            { s with workers := s.workers.set w .idle
                     unfinished := s.unfinished - 1 }
          else
            match cfg.outcome id rc with
            | .ok status =>
                { s with workers := s.workers.set w .idle
                         unfinished := s.unfinished - 1
                         stats := update_stats s.stats (okResult id status (cfg.dur id rc))
                         recordedIds := s.recordedIds ++ [id] }
            | .exc cls msg =>
                if (dispatch cls).retryable = true ∧ rc < max_retries then
                  { s with workers := s.workers.set w (.busy id (rc + 1)) }
                else
                  { s with workers := s.workers.set w .idle
                           unfinished := s.unfinished - 1
                           stats := update_stats s.stats (clauseResult id cls msg (cfg.dur id rc))
                           recordedIds := s.recordedIds ++ [id] }
      | _ => s

/-- Run a whole event trace from the initial state. -/
def runTrace (cfg : Config) (evs : List Ev) : SysState :=
  evs.foldl (step cfg) (initState cfg)

/-- The identifier a worker currently holds, if it is mid-request. -/
def WPhase.busyId : WPhase → Option Nat
  | .busy id _ => some id
  | _ => none

/-- The identifiers currently held by busy workers. -/
def busyList (ws : List WPhase) : List Nat :=
  ws.filterMap WPhase.busyId

/-- Every identifier that has been put on the queue and not abandoned:
already recorded, currently held by a worker, or still queued. -/
def activeIds (s : SysState) : List Nat :=
  s.recordedIds ++ busyList s.workers ++ s.queued

/-- The identifier-uniqueness invariant: no identifier appears twice among
recorded / in-flight / queued identifiers, and all of them have been
produced. -/
def IdsOk (s : SysState) : Prop :=
  (activeIds s).Nodup ∧ ∀ id ∈ activeIds s, id ≤ s.produced

/-- `asyncio.Queue.join()` (line 275) returns exactly when the queue's
unfinished-task count is zero. -/
def joinReady (s : SysState) : Bool :=
  s.unfinished == 0

/-! ### Warmup, timestamps and the final report (`run`, `_print_results`) -/

/-- `warmup_count = min(10, self.concurrency // 10, 50)` (line 244). -/
def warmup_count_of (concurrency : Nat) : Nat :=
  min (min 10 (concurrency / 10)) 50

/-- The reset of lines 253-258: the six collection fields are cleared;
`start_time` and `end_time` are not touched. -/
def resetAfterWarmup (s : Stats) : Stats :=
  { s with total_requests := 0, successful := 0, failed := 0
           status_codes := [], errors := [], response_times := [] }

/-- The statistics produced by `run` (lines 211-284), with time abstracted:
`start_time` is assigned the current time `t0` at line 225, BEFORE the
warmup block of lines 244-259; if `warmup_count > 0` the warmup burst takes
`warmupDur` seconds and the stats are then reset; the measured phase records
`mainResults` (in record order) and takes `mainDur` seconds; `end_time` is
assigned at line 283.  Warmup results are returned by `asyncio.gather`
(line 251) and discarded without ever reaching `_update_stats`, so only the
reset is observable on the stats. -/
def run_model (concurrency : Nat) (t0 warmupDur mainDur : ℚ)
    (mainResults : List Result) : Stats :=
  let s1 : Stats := { initStats with start_time := some t0 }
  let w := warmup_count_of concurrency
  let s2 := if 0 < w then resetAfterWarmup s1 else s1
  let s3 := mainResults.foldl update_stats s2
  { s3 with end_time := some (t0 + (if 0 < w then warmupDur else 0) + mainDur) }

/-- `sum(xs)` over the response-time list. -/
def listSum (l : List ℚ) : ℚ :=
  l.foldl (fun a b => a + b) 0

/-- `min(xs)` on a non-empty list (the empty case never occurs: the caller
guards on `if self.stats['response_times']`). -/
def pyMin : List ℚ → ℚ
  | [] => 0
  | x :: xs => xs.foldl min x

/-- `max(xs)` on a non-empty list, same guard as `pyMin`. -/
def pyMax : List ℚ → ℚ
  | [] => 0
  | x :: xs => xs.foldl max x

/-- The derived metrics computed by `_print_results` (lines 286-306). -/
structure FinalReport where
  total_requests : Nat
  successful : Nat
  failed : Nat
  success_pct : ℚ
  fail_pct : ℚ
  duration : ℚ
  rps : ℚ
  time_summary : Option (ℚ × ℚ × ℚ)
  deriving DecidableEq, Repr

/-- `_print_results` (lines 286-320) as the computation of the printed
numbers: the percentages divide by `max(total_requests, 1)` (lines 294-295),
requests/sec divides by `max(duration, 0.1)` (line 297), and the
average/min/max summary exists only when `response_times` is non-empty
(lines 299-302). -/
def print_results (s : Stats) : FinalReport :=
  let duration := s.end_time.getD 0 - s.start_time.getD 0
  { total_requests := s.total_requests
    successful := s.successful
    failed := s.failed
    success_pct := (s.successful : ℚ) / ((max s.total_requests 1 : Nat) : ℚ) * 100
    fail_pct := (s.failed : ℚ) / ((max s.total_requests 1 : Nat) : ℚ) * 100
    duration := duration
    rps := (s.total_requests : ℚ) / max duration (1 / 10)
    time_summary :=
      if s.response_times = [] then none
      else some (listSum s.response_times / (s.response_times.length : ℚ),
                 pyMin s.response_times, pyMax s.response_times) }

/-- Python `str.startswith`. -/
def strStartsWith (s pre : String) : Bool :=
  pre.toList.isPrefixOf s.toList

/-! ### Concrete scenarios used to settle individual claims -/

/-- A run of one request against a target that would answer 200 instantly:
used to show what happens when the flag is cleared after the dequeue. -/
def cfgOne : Config :=
  { num_requests := 1, concurrency := 1
    outcome := fun _ _ => .ok 200, dur := fun _ _ => 0 }

/-- Producer puts identifier 1; worker 0 dequeues it; the signal clears the
flag; the worker then enters `_make_request`, which returns `None`. -/
def traceOne : List Ev :=
  [.prodCheck, .prodPut, .poll 0, .signal, .attempt 0, .poll 0, .prodCheck]

/-- A run of two requests, one worker, target answering 200 instantly:
used to exhibit the shutdown deadlock. -/
def cfgTwo : Config :=
  { num_requests := 2, concurrency := 1
    outcome := fun _ _ => .ok 200, dur := fun _ _ => 0 }

/-- Producer puts identifiers 1 and 2; worker 0 dequeues 1; the signal
clears the flag; the worker abandons 1 (marking it done) and then exits; the
producer observes the cleared flag and stops.  Identifier 2 is still in the
queue with nobody left to dequeue it. -/
def traceTwo : List Ev :=
  [.prodCheck, .prodPut, .prodCheck, .prodPut, .poll 0, .signal,
   .attempt 0, .poll 0, .prodCheck]

/-- The state the deadlocked run of `cfgTwo` / `traceTwo` reaches. -/
def stuckTwo : SysState :=
  runTrace cfgTwo traceTwo

/-- A state with worker 0 mid-request (about to run the second retry of
identifier 5) and the run flag already cleared. -/
def midStopState : SysState :=
  { running := false, queued := [6], unfinished := 2, produced := 6
    prod := .finished, workers := [.busy 5 2, .idle]
    stats := initStats, recordedIds := [], dequeuedIds := [5] }

/-- `_make_request` against a target on which every attempt times out
(`asyncio.TimeoutError`), for a given identifier. -/
def mrTimeout (id : Nat) : MROut :=
  make_request (fun _ => true) (fun _ => .exc .timeoutError "") (fun _ => 0) id

/-- The error key `_update_stats` builds for an exhausted timeout. -/
def timeoutKey : String :=
  "TimeoutError: Request timed out after 30 seconds"

/-- The final statistics of the scenario of claim C9: 20 requests, each
producing the exhausted-timeout result of `mrTimeout` (concurrency 4 affects
scheduling only, not the recorded results). -/
def statsTimeout20 : Stats :=
  ((List.range 20).map (fun i => (mrTimeout (i + 1)).result)).foldl recordOpt initStats

/-- `_make_request` against a target where every attempt raises
`aiohttp.ClientProxyConnectionError` (a proxy-connection failure). -/
def mrProxy : MROut :=
  make_request (fun _ => true)
    (fun _ => .exc .clientProxyConnectionError "Cannot connect to proxy") (fun _ => 0) 1

/-! ### Helper lemmas about the embedded definitions -/

/-- The defining equation of `_make_request` in its source-recursive shape:
check the flag, run the attempt, and on a retryable exception below the
retry cap sleep and recurse at `retry_count + 1`. -/
theorem make_request_from_eq (running : Nat → Bool) (outcome : Nat → AttemptOutcome)
    (dur : Nat → ℚ) (id rc : Nat) :
    make_request_from running outcome dur id rc =
      if running rc = false then { result := none, sleeps := [], attempts := 0 }
      else
        match outcome rc with
        | .ok status =>
            { result := some (okResult id status (dur rc)), sleeps := [], attempts := 1 }
        | .exc cls msg =>
            if (dispatch cls).retryable = true ∧ rc < max_retries then
              let rest := make_request_from running outcome dur id (rc + 1)
              { result := rest.result, sleeps := retry_delay * 2 ^ rc :: rest.sleeps
                attempts := rest.attempts + 1 }
            else
              { result := some (clauseResult id cls msg (dur rc)), sleeps := [], attempts := 1 } := by
  unfold make_request_from
  rw [make_request_go]
  split
  · rfl
  · split
    · rfl
    · rename_i cls msg
      split
      · rename_i h
        have hf : max_retries - rc = (max_retries - (rc + 1)) + 1 := by
          have := h.2
          omega
        rw [hf]
      · rfl

/-- An attempt entered with the run flag cleared returns `None` (line 73-74). -/
theorem mr_none (running : Nat → Bool) (outcome : Nat → AttemptOutcome)
    (dur : Nat → ℚ) (id rc : Nat) (h : running rc = false) :
    make_request_from running outcome dur id rc =
      { result := none, sleeps := [], attempts := 0 } := by
  rw [make_request_from_eq]
  simp [h]

/-- An attempt that yields a numeric status code returns the
success-classified dictionary at once (lines 92-98). -/
theorem mr_ok (running : Nat → Bool) (outcome : Nat → AttemptOutcome)
    (dur : Nat → ℚ) (id rc n : Nat) (hrun : running rc = true) (ho : outcome rc = .ok n) :
    make_request_from running outcome dur id rc =
      { result := some (okResult id n (dur rc)), sleeps := [], attempts := 1 } := by
  rw [make_request_from_eq]
  simp [hrun, ho]

/-- A retryable exception below the retry cap sleeps the backoff delay and
recurses (lines 101-103, 116-118, 131-133). -/
theorem mr_retry (running : Nat → Bool) (outcome : Nat → AttemptOutcome)
    (dur : Nat → ℚ) (id rc : Nat) (cls : ExcCls) (msg : String)
    (hrun : running rc = true) (ho : outcome rc = .exc cls msg)
    (hret : (dispatch cls).retryable = true) (hlt : rc < max_retries) :
    make_request_from running outcome dur id rc =
      { result := (make_request_from running outcome dur id (rc + 1)).result
        sleeps := retry_delay * 2 ^ rc :: (make_request_from running outcome dur id (rc + 1)).sleeps
        attempts := (make_request_from running outcome dur id (rc + 1)).attempts + 1 } := by
  rw [make_request_from_eq]
  simp [hrun, ho, hret, hlt]

/-- An exception that does not retry (non-retryable clause, or the retry cap
reached) returns its handler dictionary (lines 104-113, 119-128, 134-165). -/
theorem mr_term (running : Nat → Bool) (outcome : Nat → AttemptOutcome)
    (dur : Nat → ℚ) (id rc : Nat) (cls : ExcCls) (msg : String)
    (hrun : running rc = true) (ho : outcome rc = .exc cls msg)
    (hnr : ¬((dispatch cls).retryable = true ∧ rc < max_retries)) :
    make_request_from running outcome dur id rc =
      { result := some (clauseResult id cls msg (dur rc)), sleeps := [], attempts := 1 } := by
  rw [make_request_from_eq]
  simp only [hrun, ho, Bool.true_eq_false, if_neg, if_false]
  · simp [hnr]

/-- When every attempt raises the same retryable exception and the flag
stays set, `_make_request` makes 4 attempts, sleeps the three backoff
delays, and returns the final handler dictionary timed from attempt 3. -/
theorem mr_exhaust (outcome : Nat → AttemptOutcome) (dur : Nat → ℚ) (id : Nat)
    (cls : ExcCls) (msg : String)
    (hout : ∀ rc, outcome rc = .exc cls msg) (hret : (dispatch cls).retryable = true) :
    make_request (fun _ => true) outcome dur id =
      { result := some (clauseResult id cls msg (dur 3))
        sleeps := [retry_delay * 2 ^ 0, retry_delay * 2 ^ 1, retry_delay * 2 ^ 2]
        attempts := 4 } := by
  have h3 := mr_term (fun _ => true) outcome dur id 3 cls msg rfl (hout 3)
    (by intro hc; exact absurd hc.2 (by decide))
  have h2 := mr_retry (fun _ => true) outcome dur id 2 cls msg rfl (hout 2) hret (by decide)
  have h1 := mr_retry (fun _ => true) outcome dur id 1 cls msg rfl (hout 1) hret (by decide)
  have h0 := mr_retry (fun _ => true) outcome dur id 0 cls msg rfl (hout 0) hret (by decide)
  rw [make_request, h0, h1, h2, h3]

/-- The retry cap bounds the attempt count of the recursion worker by
`fuel + 1` for any flag history and any outcomes. -/
theorem mr_go_attempts_le (running : Nat → Bool) (outcome : Nat → AttemptOutcome)
    (dur : Nat → ℚ) (id : Nat) :
    ∀ (fuel rc : Nat), (make_request_go running outcome dur id fuel rc).attempts ≤ fuel + 1 := by
  intro fuel
  induction fuel with
  | zero =>
    intro rc
    rw [make_request_go]
    split
    · simp
    · split
      · simp
      · split
        · simp
        · simp
  | succ f ih =>
    intro rc
    rw [make_request_go]
    split
    · simp
    · split
      · simp
      · split
        · have := ih (rc + 1)
          simp only [MROut.mk.injEq]
          omega
        · simp

/-- `_make_request` never makes more than 4 attempts. -/
theorem mr_attempts_le_four (running : Nat → Bool) (outcome : Nat → AttemptOutcome)
    (dur : Nat → ℚ) (id : Nat) :
    (make_request running outcome dur id).attempts ≤ 4 := by
  have := mr_go_attempts_le running outcome dur id (max_retries - 0) 0
  simpa [make_request, make_request_from, max_retries] using this


theorem busyId_busy (id rc : Nat) : (WPhase.busy id rc).busyId = some id := rfl

theorem busyId_idle : (WPhase.idle).busyId = none := rfl

theorem busyId_exited : (WPhase.exited).busyId = none := rfl

theorem busyList_nil : busyList [] = [] := rfl

theorem busyList_cons_none (hd : WPhase) (tl : List WPhase) (h : hd.busyId = none) :
    busyList (hd :: tl) = busyList tl := by
  simp [busyList, List.filterMap_cons, h]

theorem busyList_cons_some (hd : WPhase) (tl : List WPhase) (j : Nat) (h : hd.busyId = some j) :
    busyList (hd :: tl) = j :: busyList tl := by
  simp [busyList, List.filterMap_cons, h]

theorem busyList_replicate_idle (n : Nat) : busyList (List.replicate n .idle) = [] := by
  induction n with
  | zero => rfl
  | succ m ih => rw [List.replicate_succ, busyList_cons_none _ _ busyId_idle, ih]

theorem busyList_set_same : ∀ (ws : List WPhase) (w : Nat) (ph ph' : WPhase),
    ws[w]? = some ph → ph'.busyId = ph.busyId →
    busyList (ws.set w ph') = busyList ws := by
  intro ws
  induction ws with
  | nil => intro w ph ph' hget; simp at hget
  | cons hd tl ih =>
    intro w ph ph' hget hid
    cases w with
    | zero =>
      simp only [List.getElem?_cons_zero, Option.some.injEq] at hget
      subst hget
      rw [List.set_cons_zero]
      cases h : hd.busyId with
      | none => rw [busyList_cons_none _ _ (hid.trans h), busyList_cons_none _ _ h]
      | some j => rw [busyList_cons_some _ _ _ (hid.trans h), busyList_cons_some _ _ _ h]
    | succ v =>
      simp only [List.getElem?_cons_succ] at hget
      rw [List.set_cons_succ]
      cases hhd : hd.busyId with
      | none =>
        rw [busyList_cons_none _ _ hhd, busyList_cons_none _ _ hhd, ih v ph ph' hget hid]
      | some j =>
        rw [busyList_cons_some _ _ _ hhd, busyList_cons_some _ _ _ hhd, ih v ph ph' hget hid]

theorem busyList_set_toBusy : ∀ (ws : List WPhase) (w : Nat) (ph : WPhase) (id rc : Nat),
    ws[w]? = some ph → ph.busyId = none →
    List.Perm (busyList (ws.set w (.busy id rc))) (id :: busyList ws) := by
  intro ws
  induction ws with
  | nil => intro w ph id rc hget; simp at hget
  | cons hd tl ih =>
    intro w ph id rc hget hid
    cases w with
    | zero =>
      simp only [List.getElem?_cons_zero, Option.some.injEq] at hget
      subst hget
      rw [List.set_cons_zero, busyList_cons_some _ _ _ (busyId_busy id rc),
          busyList_cons_none _ _ hid]
    | succ v =>
      simp only [List.getElem?_cons_succ] at hget
      rw [List.set_cons_succ]
      have hperm := ih v ph id rc hget hid
      cases hhd : hd.busyId with
      | none =>
        rw [busyList_cons_none _ _ hhd, busyList_cons_none _ _ hhd]
        exact hperm
      | some j =>
        rw [busyList_cons_some _ _ _ hhd, busyList_cons_some _ _ _ hhd]
        exact (hperm.cons j).trans (List.Perm.swap id j _)

theorem busyList_set_toIdle : ∀ (ws : List WPhase) (w : Nat) (id rc : Nat),
    ws[w]? = some (.busy id rc) →
    List.Perm (busyList ws) (id :: busyList (ws.set w .idle)) := by
  intro ws
  induction ws with
  | nil => intro w id rc hget; simp at hget
  | cons hd tl ih =>
    intro w id rc hget
    cases w with
    | zero =>
      simp only [List.getElem?_cons_zero, Option.some.injEq] at hget
      subst hget
      rw [List.set_cons_zero, busyList_cons_some _ _ _ (busyId_busy id rc),
          busyList_cons_none _ _ busyId_idle]
    | succ v =>
      simp only [List.getElem?_cons_succ] at hget
      rw [List.set_cons_succ]
      have hperm := ih v id rc hget
      cases hhd : hd.busyId with
      | none =>
        rw [busyList_cons_none _ _ hhd, busyList_cons_none _ _ hhd]
        exact hperm
      | some j =>
        rw [busyList_cons_some _ _ _ hhd, busyList_cons_some _ _ _ hhd]
        exact (hperm.cons j).trans (List.Perm.swap id j _)


theorem nodup_bound_concat (A : List Nat) (p : Nat) (hnd : A.Nodup) (hle : ∀ id ∈ A, id ≤ p) :
    (A ++ [p + 1]).Nodup ∧ ∀ id ∈ A ++ [p + 1], id ≤ p + 1 := by
  have hperm := List.perm_append_singleton (p + 1) A
  constructor
  · rw [hperm.nodup_iff, List.nodup_cons]
    exact ⟨fun hmem => by have := hle _ hmem; omega, hnd⟩
  · intro id hid
    rw [hperm.mem_iff, List.mem_cons] at hid
    rcases hid with rfl | hid
    · exact le_refl _
    · exact le_trans (hle _ hid) (Nat.le_succ p)

theorem idsOk_of_perm (s s' : SysState)
    (hperm : List.Perm (activeIds s') (activeIds s)) (hprod : s.produced ≤ s'.produced)
    (h : IdsOk s) : IdsOk s' := by
  obtain ⟨hnd, hle⟩ := h
  refine ⟨hperm.nodup_iff.mpr hnd, ?_⟩
  intro id hid
  exact le_trans (hle id (hperm.mem_iff.mp hid)) hprod

theorem idsOk_of_drop (s s' : SysState) (x : Nat)
    (hperm : List.Perm (activeIds s) (x :: activeIds s')) (hprod : s.produced ≤ s'.produced)
    (h : IdsOk s) : IdsOk s' := by
  obtain ⟨hnd, hle⟩ := h
  have hnd' : (x :: activeIds s').Nodup := hperm.nodup_iff.mp hnd
  refine ⟨hnd'.of_cons, ?_⟩
  intro id hid
  exact le_trans (hle id (hperm.mem_iff.mpr (List.mem_cons_of_mem x hid))) hprod

/-- The permutation shape shared by dequeue and record transitions:
moving one identifier between the middle slices of `activeIds`. -/
theorem perm_insert_middle (A B C : List Nat) (id : Nat) :
    List.Perm (A ++ (id :: B) ++ C) (id :: (A ++ B ++ C)) := by
  rw [List.append_assoc A (id :: B) C]
  have h1 : List.Perm (A ++ (id :: (B ++ C))) (id :: (A ++ (B ++ C))) := List.perm_middle
  simp only [List.append_assoc]
  exact h1

theorem perm_queue_middle (A B C : List Nat) (id : Nat) :
    List.Perm (A ++ B ++ (id :: C)) (id :: (A ++ B ++ C)) := by
  have h1 : List.Perm ((A ++ B) ++ (id :: C)) (id :: ((A ++ B) ++ C)) := List.perm_middle
  simp only [List.append_assoc]
  simp only [List.append_assoc] at h1
  exact h1

theorem perm_record_end (A B C : List Nat) (id : Nat) :
    List.Perm ((A ++ [id]) ++ B ++ C) (id :: (A ++ B ++ C)) := by
  have h1 : List.Perm (A ++ (id :: (B ++ C))) (id :: (A ++ (B ++ C))) := List.perm_middle
  have h2 : (A ++ [id]) ++ B ++ C = A ++ (id :: (B ++ C)) := by
    simp [List.append_assoc]
  rw [h2]
  simp only [List.append_assoc]
  exact h1

/-- Every step of the system preserves identifier uniqueness. -/
theorem idsOk_step (cfg : Config) (s : SysState) (ev : Ev) (h : IdsOk s) :
    IdsOk (step cfg s ev) := by
  cases ev with
  | signal => exact h
  | prodCheck =>
    simp only [step]
    split
    · split
      · exact h
      · exact h
    · exact h
  | prodPut =>
    simp only [step]
    split
    · obtain ⟨hnd, hle⟩ := h
      simp only [IdsOk, activeIds] at hnd hle ⊢
      have hassoc :
          s.recordedIds ++ busyList s.workers ++ (s.queued ++ [s.produced + 1]) =
            (s.recordedIds ++ busyList s.workers ++ s.queued) ++ [s.produced + 1] := by
        simp [List.append_assoc]
      rw [hassoc]
      exact nodup_bound_concat _ _ hnd hle
    · exact h
  | poll w =>
    rcases hget : s.workers[w]? with _ | ph
    · simp only [step, hget]
      exact h
    · cases ph with
      | idle =>
        simp only [step, hget]
        split
        · cases hq : s.queued with
          | nil => exact h
          | cons id rest =>
            refine idsOk_of_perm s _ ?_ (Nat.le_refl _) h
            have hbl := busyList_set_toBusy s.workers w .idle id 0 hget busyId_idle
            show List.Perm
              (s.recordedIds ++ busyList (s.workers.set w (.busy id 0)) ++ rest)
              (activeIds s)
            have h1 :
                List.Perm (s.recordedIds ++ busyList (s.workers.set w (.busy id 0)) ++ rest)
                  (s.recordedIds ++ (id :: busyList s.workers) ++ rest) :=
              (hbl.append_left s.recordedIds).append_right rest
            have h2 := perm_insert_middle s.recordedIds (busyList s.workers) rest id
            have h3 := perm_queue_middle s.recordedIds (busyList s.workers) rest id
            have hq' : activeIds s =
                s.recordedIds ++ busyList s.workers ++ (id :: rest) := by
              simp only [activeIds, hq]
            rw [hq']
            exact (h1.trans h2).trans h3.symm
        · refine idsOk_of_perm s _ ?_ (Nat.le_refl _) h
          show List.Perm
            (s.recordedIds ++ busyList (s.workers.set w .exited) ++ s.queued)
            (activeIds s)
          rw [busyList_set_same s.workers w .idle .exited hget rfl]
          exact List.Perm.refl _
      | busy id rc =>
        simp only [step, hget]
        exact h
      | exited =>
        simp only [step, hget]
        exact h
  | attempt w =>
    rcases hget : s.workers[w]? with _ | ph
    · simp only [step, hget]
      exact h
    · cases ph with
      | idle =>
        simp only [step, hget]
        exact h
      | busy id rc =>
        simp only [step, hget]
        have hbl := busyList_set_toIdle s.workers w id rc hget
        split
        · refine idsOk_of_drop s _ id ?_ (Nat.le_refl _) h
          show List.Perm (activeIds s)
            (id :: (s.recordedIds ++ busyList (s.workers.set w .idle) ++ s.queued))
          have h2 := perm_insert_middle s.recordedIds
            (busyList (s.workers.set w .idle)) s.queued id
          exact ((hbl.append_left s.recordedIds).append_right s.queued).trans h2
        · split
          · rename_i status heq
            refine idsOk_of_perm s _ ?_ (Nat.le_refl _) h
            show List.Perm
              ((s.recordedIds ++ [id]) ++ busyList (s.workers.set w .idle) ++ s.queued)
              (activeIds s)
            have h1 := perm_record_end s.recordedIds
              (busyList (s.workers.set w .idle)) s.queued id
            have h2 := perm_insert_middle s.recordedIds
              (busyList (s.workers.set w .idle)) s.queued id
            have h3 :
                List.Perm (activeIds s)
                  (s.recordedIds ++ (id :: busyList (s.workers.set w .idle)) ++ s.queued) :=
              (hbl.append_left s.recordedIds).append_right s.queued
            exact h1.trans ((h3.trans h2).symm)
          · rename_i cls msg heq
            split
            · refine idsOk_of_perm s _ ?_ (Nat.le_refl _) h
              show List.Perm
                (s.recordedIds ++ busyList (s.workers.set w (.busy id (rc + 1))) ++ s.queued)
                (activeIds s)
              rw [busyList_set_same s.workers w (.busy id rc) (.busy id (rc + 1)) hget rfl]
              exact List.Perm.refl _
            · refine idsOk_of_perm s _ ?_ (Nat.le_refl _) h
              show List.Perm
                ((s.recordedIds ++ [id]) ++ busyList (s.workers.set w .idle) ++ s.queued)
                (activeIds s)
              have h1 := perm_record_end s.recordedIds
                (busyList (s.workers.set w .idle)) s.queued id
              have h2 := perm_insert_middle s.recordedIds
                (busyList (s.workers.set w .idle)) s.queued id
              have h3 :
                  List.Perm (activeIds s)
                    (s.recordedIds ++ (id :: busyList (s.workers.set w .idle)) ++ s.queued) :=
                (hbl.append_left s.recordedIds).append_right s.queued
              exact h1.trans ((h3.trans h2).symm)
      | exited =>
        simp only [step, hget]
        exact h

/-- Identifier uniqueness holds initially and along every trace. -/
theorem idsOk_runTrace (cfg : Config) (tr : List Ev) : IdsOk (runTrace cfg tr) := by
  have hinit : IdsOk (initState cfg) := by
    constructor
    · show (([] : List Nat) ++ busyList (List.replicate cfg.concurrency .idle) ++ []).Nodup
      rw [busyList_replicate_idle]
      exact List.nodup_nil
    · intro id hid
      rw [show activeIds (initState cfg) = [] from by
        simp [activeIds, initState, busyList_replicate_idle]] at hid
      simp at hid
  suffices hsuf : ∀ (l : List Ev) (s : SysState), IdsOk s → IdsOk (l.foldl (step cfg) s) by
    exact hsuf tr (initState cfg) hinit
  intro l
  induction l with
  | nil => intro s hs; exact hs
  | cons e t ih =>
    intro s hs
    exact ih (step cfg s e) (idsOk_step cfg s e hs)


theorem update_stats_total (s : Stats) (r : Result) :
    (update_stats s r).total_requests = s.total_requests + 1 := by
  simp only [update_stats]
  split
  · rfl
  · cases r.error_type <;> rfl

theorem update_stats_succ_or_fail (s : Stats) (r : Result) :
    ((update_stats s r).successful = s.successful + 1 ∧ (update_stats s r).failed = s.failed) ∨
    ((update_stats s r).successful = s.successful ∧ (update_stats s r).failed = s.failed + 1) := by
  simp only [update_stats]
  split
  · left; exact ⟨rfl, rfl⟩
  · right
    cases r.error_type <;> exact ⟨rfl, rfl⟩

theorem update_stats_sum (s : Stats) (r : Result) :
    (update_stats s r).successful + (update_stats s r).failed =
      s.successful + s.failed + 1 := by
  rcases update_stats_succ_or_fail s r with ⟨h1, h2⟩ | ⟨h1, h2⟩ <;> rw [h1, h2] <;> omega

theorem update_stats_times_len (s : Stats) (r : Result) :
    (update_stats s r).response_times.length = s.response_times.length + 1 := by
  simp only [update_stats]
  split
  · simp
  · cases r.error_type <;> simp

theorem update_stats_start_time (s : Stats) (r : Result) :
    (update_stats s r).start_time = s.start_time := by
  simp only [update_stats]
  split
  · rfl
  · cases r.error_type <;> rfl

theorem foldl_update_total (rs : List Result) :
    ∀ (s : Stats), (rs.foldl update_stats s).total_requests = s.total_requests + rs.length := by
  induction rs with
  | nil => intro s; rfl
  | cons r t ih =>
    intro s
    rw [List.foldl_cons, ih, update_stats_total, List.length_cons]
    omega

theorem foldl_update_sum (rs : List Result) :
    ∀ (s : Stats),
      (rs.foldl update_stats s).successful + (rs.foldl update_stats s).failed =
        s.successful + s.failed + rs.length := by
  induction rs with
  | nil => intro s; rfl
  | cons r t ih =>
    intro s
    rw [List.foldl_cons, ih, update_stats_sum, List.length_cons]
    omega

theorem foldl_update_times_len (rs : List Result) :
    ∀ (s : Stats),
      (rs.foldl update_stats s).response_times.length =
        s.response_times.length + rs.length := by
  induction rs with
  | nil => intro s; rfl
  | cons r t ih =>
    intro s
    rw [List.foldl_cons, ih, update_stats_times_len, List.length_cons]
    omega

theorem foldl_update_start_time (rs : List Result) :
    ∀ (s : Stats), (rs.foldl update_stats s).start_time = s.start_time := by
  induction rs with
  | nil => intro s; rfl
  | cons r t ih =>
    intro s
    rw [List.foldl_cons, ih, update_stats_start_time]

theorem dictGet_cons_hit (hd : String × Nat) (tl : List (String × Nat)) (k : String)
    (h : (hd.1 == k) = true) : dictGet (hd :: tl) k = hd.2 := by
  simp [dictGet, List.find?_cons, h]

theorem dictGet_cons_miss (hd : String × Nat) (tl : List (String × Nat)) (k : String)
    (h : (hd.1 == k) = false) : dictGet (hd :: tl) k = dictGet tl k := by
  simp [dictGet, List.find?_cons, h]

theorem dictIncr_cons_hit (hd : String × Nat) (tl : List (String × Nat)) (k : String)
    (h : (hd.1 == k) = true) :
    dictIncr (hd :: tl) k =
      (hd.1, hd.2 + 1) :: tl.map (fun p => if p.1 == k then (p.1, p.2 + 1) else p) := by
  have heq : hd.1 = k := by simpa using h
  simp [dictIncr, List.any_cons, heq]

theorem dictIncr_cons_miss (hd : String × Nat) (tl : List (String × Nat)) (k : String)
    (h : (hd.1 == k) = false) :
    dictIncr (hd :: tl) k = hd :: dictIncr tl k := by
  have hne : ¬hd.1 = k := by simpa using h
  by_cases ht : tl.any (fun p => p.1 == k) <;> simp [dictIncr, List.any_cons, h, ht, hne]

/-- Recording a key bumps exactly that key's dict count by one. -/
theorem dictGet_dictIncr_self (d : List (String × Nat)) (k : String) :
    dictGet (dictIncr d k) k = dictGet d k + 1 := by
  induction d with
  | nil => simp [dictGet, dictIncr]
  | cons hd tl ih =>
    by_cases hk : (hd.1 == k) = true
    · rw [dictIncr_cons_hit hd tl k hk,
          dictGet_cons_hit (hd.1, hd.2 + 1) _ k hk,
          dictGet_cons_hit hd tl k hk]
    · have hk' : (hd.1 == k) = false := by simpa using hk
      rw [dictIncr_cons_miss hd tl k hk', dictGet_cons_miss _ _ _ hk',
          dictGet_cons_miss _ _ _ hk', ih]


/-! ### Claim theorems -/

/-- C1 (counterexample): in the one-request run of `cfgOne`, identifier 1 is
dequeued by worker 0 and only then is the run flag cleared (`traceOne`
schedules the signal between the dequeue and the attempt); the claim says
identifier 1 must still run to completion and produce a terminal Result
recorded in the Statistics, but the final state has recorded nothing: the
check of `self.running` at the top of `_make_request` (line 73) returns
`None` for already-dequeued work as well. -/
theorem C1_counterexample :
    (runTrace cfgOne traceOne).dequeuedIds = [1] ∧
    (runTrace cfgOne traceOne).running = false ∧
    (runTrace cfgOne traceOne).recordedIds = [] ∧
    (runTrace cfgOne traceOne).stats.total_requests = 0 ∧
    (runTrace cfgOne traceOne).stats.response_times = [] := by
  decide

/-- C1 (amended): if the run flag is cleared after a request identifier has
been dequeued but before its next attempt starts, the worker abandons it:
`_make_request` returns `None`, nothing is recorded in the Statistics, and
the item is only marked done; identifiers not yet dequeued are likewise
skipped, because an idle worker that observes the cleared flag exits without
dequeuing. -/
theorem C1_amended_stop_semantics (cfg : Config) (s : SysState) (w id rc : Nat)
    (hw : s.workers[w]? = some (.busy id rc)) (hr : s.running = false) :
    (step cfg s (.attempt w)).stats = s.stats ∧
    (step cfg s (.attempt w)).recordedIds = s.recordedIds ∧
    (step cfg s (.attempt w)).unfinished = s.unfinished - 1 ∧
    (step cfg s (.attempt w)).workers = s.workers.set w .idle ∧
    ∀ w' : Nat, s.workers[w']? = some .idle →
      (step cfg s (.poll w')).dequeuedIds = s.dequeuedIds ∧
      (step cfg s (.poll w')).workers = s.workers.set w' .exited := by
  refine ⟨?_, ?_, ?_, ?_, ?_⟩
  · simp [step, hw, hr]
  · simp [step, hw, hr]
  · simp [step, hw, hr]
  · simp [step, hw, hr]
  · intro w' hw'
    constructor
    · simp [step, hw', hr]
    · simp [step, hw', hr]

/-- C1 (amended, witness): the amended statement evaluated at the concrete
mid-shutdown state `midStopState`. -/
theorem C1_amended_stop_semantics_witness :
    (step cfgOne midStopState (.attempt 0)).stats = midStopState.stats ∧
    (step cfgOne midStopState (.attempt 0)).recordedIds = midStopState.recordedIds ∧
    (step cfgOne midStopState (.attempt 0)).unfinished = midStopState.unfinished - 1 ∧
    (step cfgOne midStopState (.attempt 0)).workers = midStopState.workers.set 0 .idle ∧
    ∀ w' : Nat, midStopState.workers[w']? = some .idle →
      (step cfgOne midStopState (.poll w')).dequeuedIds = midStopState.dequeuedIds ∧
      (step cfgOne midStopState (.poll w')).workers = midStopState.workers.set w' .exited :=
  C1_amended_stop_semantics cfgOne midStopState 0 5 2 (by decide) (by decide)

/-- The deadlocked two-request run reaches exactly this state: identifier 2
still queued and counted unfinished, worker exited, producer stopped. -/
theorem stuckTwo_eq :
    stuckTwo =
      { running := false, queued := [2], unfinished := 1, produced := 2
        prod := .finished, workers := [.exited], stats := initStats
        recordedIds := [], dequeuedIds := [1] } := by
  decide

/-- The deadlocked state is a fixpoint: no event changes it. -/
theorem stuckTwo_fix (e : Ev) : step cfgTwo stuckTwo e = stuckTwo := by
  rw [stuckTwo_eq]
  cases e with
  | signal => rfl
  | prodCheck => rfl
  | prodPut => rfl
  | poll w => cases w with
    | zero => rfl
    | succ v => rfl
  | attempt w => cases w with
    | zero => rfl
    | succ v => rfl

/-- No continuation leaves the deadlocked state. -/
theorem stuckTwo_stays (ext : List Ev) :
    ext.foldl (step cfgTwo) stuckTwo = stuckTwo := by
  induction ext with
  | nil => rfl
  | cons e t ih => rw [List.foldl_cons, stuckTwo_fix e, ih]

/-- C2: the claim fails as a property of the code: in the two-request run of
`cfgTwo`, the flag is cleared after identifier 2 is enqueued but before any
worker dequeues it; the worker abandons identifier 1, exits, and the
producer stops, leaving the queue's unfinished count at 1 forever, so
`queue.join()` (line 275) never returns, `end_time` is never assigned and
no report is printed.  `joinReady` stays false after every possible
continuation of the trace. -/
theorem C2_interrupted_run_hangs :
    (runTrace cfgTwo traceTwo).dequeuedIds = [1] ∧
    (runTrace cfgTwo traceTwo).produced = 2 ∧
    (runTrace cfgTwo traceTwo).prod = PPhase.finished ∧
    (runTrace cfgTwo traceTwo).workers = [WPhase.exited] ∧
    joinReady (runTrace cfgTwo traceTwo) = false ∧
    ∀ ext : List Ev, joinReady (ext.foldl (step cfgTwo) (runTrace cfgTwo traceTwo)) = false := by
  refine ⟨by decide, by decide, by decide, by decide, by decide, fun ext => ?_⟩
  show joinReady (ext.foldl (step cfgTwo) stuckTwo) = false
  rw [stuckTwo_stays]
  decide

/-- C3 (counterexample): when every attempt raises
`aiohttp.ClientProxyConnectionError`, the Result's status is
`CONNECTION_ERROR`, not `PROXY_ERROR`: since `ClientProxyConnectionError`
subclasses `ClientConnectorError`, the handler at line 114 catches it first
and the dedicated handler at line 129 is unreachable. -/
theorem C3_counterexample :
    mrProxy.result.map Result.status_code = some StatusCode.CONNECTION_ERROR ∧
    mrProxy.result.map Result.status_code ≠ some StatusCode.PROXY_ERROR := by
  exact ⟨by decide, by decide⟩

/-- C3 (amended): a request whose every attempt fails with a
proxy-connection failure yields, after the 3rd retry is exhausted, a single
Result with sentinel status `CONNECTION_ERROR` whose `error_type` field is
`ClientProxyConnectionError`: proxy failures remain distinguishable from
plain connection failures through `error_type`, not through the status. -/
theorem C3_amended_proxy_status (outcome : Nat → AttemptOutcome) (dur : Nat → ℚ)
    (id : Nat) (msg : String)
    (hout : ∀ rc, outcome rc = .exc .clientProxyConnectionError msg) :
    (make_request (fun _ => true) outcome dur id).result =
      some { request_id := id, status_code := .CONNECTION_ERROR, response_time := dur 3
             success := false, error_type := some "ClientProxyConnectionError"
             error := some msg } ∧
    (make_request (fun _ => true) outcome dur id).attempts = 4 := by
  rw [mr_exhaust outcome dur id .clientProxyConnectionError msg hout (by decide)]
  exact ⟨rfl, rfl⟩

/-- C3 (amended, witness): the amended statement at a concrete run. -/
theorem C3_amended_proxy_status_witness :
    (make_request (fun _ => true)
        (fun _ => .exc .clientProxyConnectionError "x") (fun _ => 0) 1).result =
      some { request_id := 1, status_code := .CONNECTION_ERROR, response_time := 0
             success := false, error_type := some "ClientProxyConnectionError"
             error := some "x" } ∧
    (make_request (fun _ => true)
        (fun _ => .exc .clientProxyConnectionError "x") (fun _ => 0) 1).attempts = 4 :=
  C3_amended_proxy_status (fun _ => .exc .clientProxyConnectionError "x") (fun _ => 0) 1 "x"
    (fun _ => rfl)


/-- C4 (counterexample): with `concurrency = 100` the warmup phase runs
(`warmup_count = 10`), yet `start_time` is assigned at line 225 before the
warmup block of lines 244-259: with warmup taking 5 seconds and the
measured phase 1 second, the recorded bracket is 6 seconds, not the
measured phase's 1 second, so `start_time`/`end_time` do not exclude the
warmup duration. -/
theorem C4_counterexample :
    0 < warmup_count_of 100 ∧
    (run_model 100 0 5 1 []).start_time = some 0 ∧
    (run_model 100 0 5 1 []).end_time = some ((0 : ℚ) + 5 + 1) ∧
    (0 : ℚ) + 5 + 1 ≠ 1 := by
  refine ⟨by decide, rfl, rfl, by norm_num⟩

/-- C4 (amended): when the warmup phase runs, the Statistics is reset to
empty after warmup (so no warmup result appears in the final report, whose
measured phase folds from the reset state), but `start_time` is recorded
BEFORE the warmup phase, so the `start_time`/`end_time` bracket includes
the warmup duration in addition to the measured phase. -/
theorem C4_amended_warmup_reset (concurrency : Nat) (t0 warmupDur mainDur : ℚ)
    (rs : List Result) (hw : 0 < warmup_count_of concurrency) :
    run_model concurrency t0 warmupDur mainDur rs =
      { rs.foldl update_stats (resetAfterWarmup { initStats with start_time := some t0 }) with
          end_time := some (t0 + warmupDur + mainDur) } ∧
    (resetAfterWarmup { initStats with start_time := some t0 }).total_requests = 0 ∧
    (resetAfterWarmup { initStats with start_time := some t0 }).successful = 0 ∧
    (resetAfterWarmup { initStats with start_time := some t0 }).failed = 0 ∧
    (resetAfterWarmup { initStats with start_time := some t0 }).status_codes = [] ∧
    (resetAfterWarmup { initStats with start_time := some t0 }).errors = [] ∧
    (resetAfterWarmup { initStats with start_time := some t0 }).response_times = [] ∧
    (run_model concurrency t0 warmupDur mainDur rs).start_time = some t0 ∧
    (run_model concurrency t0 warmupDur mainDur rs).end_time =
      some (t0 + warmupDur + mainDur) := by
  have hrm : run_model concurrency t0 warmupDur mainDur rs =
      { rs.foldl update_stats (resetAfterWarmup { initStats with start_time := some t0 }) with
          end_time := some (t0 + warmupDur + mainDur) } := by
    simp only [run_model]
    rw [if_pos hw, if_pos hw]
  refine ⟨hrm, rfl, rfl, rfl, rfl, rfl, rfl, ?_, ?_⟩
  · rw [hrm]
    show (rs.foldl update_stats
      (resetAfterWarmup { initStats with start_time := some t0 })).start_time = some t0
    rw [foldl_update_start_time]
    rfl
  · rw [hrm]

/-- C4 (amended, witness): the amended statement at `concurrency = 100`,
`t0 = 0`, warmup 5 seconds, measured phase 1 second, no measured records. -/
theorem C4_amended_warmup_reset_witness :
    0 < warmup_count_of 100 ∧
    (run_model 100 0 5 1 [] =
      { ([] : List Result).foldl update_stats
          (resetAfterWarmup { initStats with start_time := some 0 }) with
          end_time := some ((0 : ℚ) + 5 + 1) } ∧
    (resetAfterWarmup { initStats with start_time := some (0 : ℚ) }).total_requests = 0 ∧
    (resetAfterWarmup { initStats with start_time := some (0 : ℚ) }).successful = 0 ∧
    (resetAfterWarmup { initStats with start_time := some (0 : ℚ) }).failed = 0 ∧
    (resetAfterWarmup { initStats with start_time := some (0 : ℚ) }).status_codes = [] ∧
    (resetAfterWarmup { initStats with start_time := some (0 : ℚ) }).errors = [] ∧
    (resetAfterWarmup { initStats with start_time := some (0 : ℚ) }).response_times = [] ∧
    (run_model 100 0 5 1 []).start_time = some 0 ∧
    (run_model 100 0 5 1 []).end_time = some ((0 : ℚ) + 5 + 1)) :=
  ⟨by decide, C4_amended_warmup_reset 100 0 5 1 [] (by decide)⟩

/-- C5: a request whose 4 attempts all fail with a connection-establishment
failure (any exception caught by the connection-error handler of line 114)
produces exactly one Result: status `CONNECTION_ERROR`, the exception class
name as `error_type`, and `response_time` equal to `dur 3`, the elapsed
time of the final (4th) attempt alone — no backoff delay and no earlier
attempt's time is included. -/
theorem C5_connection_failure_result (outcome : Nat → AttemptOutcome) (dur : Nat → ℚ)
    (id : Nat) (cls : ExcCls) (msg : String)
    (hout : ∀ rc, outcome rc = .exc cls msg) (hcls : dispatch cls = .connClause) :
    (make_request (fun _ => true) outcome dur id).result =
      some { request_id := id, status_code := .CONNECTION_ERROR, response_time := dur 3
             success := false, error_type := some cls.pyName, error := some msg } ∧
    (make_request (fun _ => true) outcome dur id).attempts = 4 := by
  rw [mr_exhaust outcome dur id cls msg hout (by rw [hcls]; rfl)]
  constructor
  · show some (clauseResult id cls msg (dur 3)) = _
    simp [clauseResult, hcls]
  · rfl

/-- C5 (witness): the statement at a concrete all-connection-failure run
with per-attempt duration 7. -/
theorem C5_connection_failure_result_witness :
    (make_request (fun _ => true)
        (fun _ => .exc .clientConnectorError "Cannot connect to host") (fun _ => 7) 1).result =
      some { request_id := 1, status_code := .CONNECTION_ERROR, response_time := 7
             success := false, error_type := some "ClientConnectorError"
             error := some "Cannot connect to host" } ∧
    (make_request (fun _ => true)
        (fun _ => .exc .clientConnectorError "Cannot connect to host") (fun _ => 7) 1).attempts = 4 :=
  C5_connection_failure_result (fun _ => .exc .clientConnectorError "Cannot connect to host")
    (fun _ => 7) 1 .clientConnectorError "Cannot connect to host" (fun _ => rfl) (by decide)

/-- C6: for retryable failures at most 3 retries happen (at most 4 attempts,
for any flag history and outcomes), and when all four attempts fail
retryably the backoff delays slept before retries 1, 2, 3 are exactly
`0.1 * 2 ** 0 = 0.1`, `0.1 * 2 ** 1 = 0.2` and `0.1 * 2 ** 2 = 0.4`
seconds. -/
theorem C6_retry_backoff (outcome : Nat → AttemptOutcome) (dur : Nat → ℚ) (id : Nat)
    (cls : ExcCls) (msg : String)
    (hout : ∀ rc, outcome rc = .exc cls msg) (hret : (dispatch cls).retryable = true) :
    (make_request (fun _ => true) outcome dur id).attempts = 4 ∧
    (make_request (fun _ => true) outcome dur id).sleeps =
      [retry_delay * 2 ^ 0, retry_delay * 2 ^ 1, retry_delay * 2 ^ 2] ∧
    retry_delay * 2 ^ 0 = 1 / 10 ∧
    retry_delay * 2 ^ 1 = 2 / 10 ∧
    retry_delay * 2 ^ 2 = 4 / 10 ∧
    ∀ (running2 : Nat → Bool) (outcome2 : Nat → AttemptOutcome) (dur2 : Nat → ℚ) (id2 : Nat),
      (make_request running2 outcome2 dur2 id2).attempts ≤ 4 := by
  rw [mr_exhaust outcome dur id cls msg hout hret]
  refine ⟨rfl, rfl, by norm_num [retry_delay], by norm_num [retry_delay],
    by norm_num [retry_delay], ?_⟩
  intro running2 outcome2 dur2 id2
  exact mr_attempts_le_four running2 outcome2 dur2 id2

/-- C6 (witness): the statement at a concrete all-timeout run. -/
theorem C6_retry_backoff_witness :
    (make_request (fun _ => true) (fun _ => .exc .timeoutError "t") (fun _ => 0) 2).attempts = 4 ∧
    (make_request (fun _ => true) (fun _ => .exc .timeoutError "t") (fun _ => 0) 2).sleeps =
      [retry_delay * 2 ^ 0, retry_delay * 2 ^ 1, retry_delay * 2 ^ 2] ∧
    retry_delay * 2 ^ 0 = 1 / 10 ∧
    retry_delay * 2 ^ 1 = 2 / 10 ∧
    retry_delay * 2 ^ 2 = 4 / 10 ∧
    ∀ (running2 : Nat → Bool) (outcome2 : Nat → AttemptOutcome) (dur2 : Nat → ℚ) (id2 : Nat),
      (make_request running2 outcome2 dur2 id2).attempts ≤ 4 :=
  C6_retry_backoff (fun _ => .exc .timeoutError "t") (fun _ => 0) 2 .timeoutError "t"
    (fun _ => rfl) (by decide)

/-- C7: an attempt yielding a numeric status code returns a Result whose
`success` is true iff the status lies in [200, 400); a 200 Result is
success, a 404 Result is failure, and recording a 404 Result increments
`failed` (not `successful`) and the "404" entry of the status histogram. -/
theorem C7_status_success (outcome : Nat → AttemptOutcome) (dur : Nat → ℚ)
    (id n : Nat) (d : ℚ) (s : Stats) (ho : outcome 0 = .ok n) :
    (make_request (fun _ => true) outcome dur id).result = some (okResult id n (dur 0)) ∧
    ((okResult id n (dur 0)).success = true ↔ (200 ≤ n ∧ n < 400)) ∧
    (okResult id 200 d).success = true ∧
    (okResult id 404 d).success = false ∧
    (update_stats s (okResult id 404 d)).failed = s.failed + 1 ∧
    (update_stats s (okResult id 404 d)).successful = s.successful ∧
    dictGet (update_stats s (okResult id 404 d)).status_codes "404" =
      dictGet s.status_codes "404" + 1 := by
  refine ⟨?_, ?_, rfl, rfl, ?_, ?_, ?_⟩
  · rw [make_request, mr_ok (fun _ => true) outcome dur id 0 n rfl ho]
  · simp [okResult]
  · simp [update_stats, okResult]
  · simp [update_stats, okResult]
  · have h1 : (update_stats s (okResult id 404 d)).status_codes
        = dictIncr s.status_codes "404" := by
      simp only [update_stats, okResult, StatusCode.toStr]
      rfl
    rw [h1, dictGet_dictIncr_self]

/-- C7 (witness): the statement at a 404 response with zero duration. -/
theorem C7_status_success_witness :
    (make_request (fun _ => true) (fun _ => .ok 404) (fun _ => 0) 1).result =
      some (okResult 1 404 0) ∧
    ((okResult 1 404 0).success = true ↔ (200 ≤ 404 ∧ 404 < 400)) ∧
    (okResult 1 200 0).success = true ∧
    (okResult 1 404 0).success = false ∧
    (update_stats initStats (okResult 1 404 0)).failed = initStats.failed + 1 ∧
    (update_stats initStats (okResult 1 404 0)).successful = initStats.successful ∧
    dictGet (update_stats initStats (okResult 1 404 0)).status_codes "404" =
      dictGet initStats.status_codes "404" + 1 :=
  C7_status_success (fun _ => .ok 404) (fun _ => 0) 1 404 0 initStats rfl

/-- C8: every record call increments `total_requests` by one and exactly one
of `successful`/`failed` by one; consequently any sequence of record calls
from the empty Statistics keeps `total == successful + failed` and one
response time per record; and along every execution of the worker system no
identifier is ever recorded twice. -/
theorem C8_record_invariants :
    (∀ (s : Stats) (r : Result),
        (update_stats s r).total_requests = s.total_requests + 1 ∧
        (((update_stats s r).successful = s.successful + 1 ∧
            (update_stats s r).failed = s.failed) ∨
         ((update_stats s r).successful = s.successful ∧
            (update_stats s r).failed = s.failed + 1))) ∧
    (∀ rs : List Result,
        (rs.foldl update_stats initStats).total_requests =
          (rs.foldl update_stats initStats).successful +
            (rs.foldl update_stats initStats).failed ∧
        (rs.foldl update_stats initStats).response_times.length =
          (rs.foldl update_stats initStats).total_requests) ∧
    (∀ (cfg : Config) (tr : List Ev), (runTrace cfg tr).recordedIds.Nodup) := by
  refine ⟨fun s r => ⟨update_stats_total s r, update_stats_succ_or_fail s r⟩,
    fun rs => ?_, fun cfg tr => ?_⟩
  · have h1 := foldl_update_total rs initStats
    have h2 := foldl_update_sum rs initStats
    have h3 := foldl_update_times_len rs initStats
    have e1 : initStats.total_requests = 0 := rfl
    have e2 : initStats.successful = 0 := rfl
    have e3 : initStats.failed = 0 := rfl
    have e4 : initStats.response_times.length = 0 := rfl
    constructor
    · omega
    · omega
  · have h := (idsOk_runTrace cfg tr).1
    simp only [activeIds] at h
    exact h.of_append_left.of_append_left

/-- C9 (counterexample): in the all-timeouts scenario the single
`error_histogram` entry is keyed `TimeoutError: Request timed out after 30
seconds` (from `type(e).__name__`, line 104), which does not begin with
`Timeout: `, so no entry with that prefix exists. -/
theorem C9_counterexample :
    statsTimeout20.errors = [(timeoutKey, 20)] ∧
    strStartsWith timeoutKey "Timeout: " = false := by
  exact ⟨by decide, by decide⟩

/-- C9 (amended): 20 requests against an always-timing-out target give
`total = 20`, `failed = 20`, a single error-histogram entry with count 20
whose key begins with `TimeoutError: `, and each request internally makes 4
attempts. -/
theorem C9_amended_timeout_scenario :
    statsTimeout20.total_requests = 20 ∧
    statsTimeout20.failed = 20 ∧
    statsTimeout20.successful = 0 ∧
    statsTimeout20.errors = [(timeoutKey, 20)] ∧
    strStartsWith timeoutKey "TimeoutError: " = true ∧
    ∀ i ∈ List.range 20, (mrTimeout (i + 1)).attempts = 4 := by
  refine ⟨by decide, by decide, by decide, by decide, by decide, by decide⟩

/-- C10: the report computation is division-safe for every Statistics: the
percentage denominator `max(total, 1)` is positive, the requests-per-second
denominator `max(duration, 0.1)` is positive, and the average/min/max
summary is computed exactly when `response_times` is non-empty (whose
length is then a positive divisor). -/
theorem C10_report_division_safe (s : Stats) :
    (print_results s).success_pct =
      (s.successful : ℚ) / ((max s.total_requests 1 : Nat) : ℚ) * 100 ∧
    (print_results s).fail_pct =
      (s.failed : ℚ) / ((max s.total_requests 1 : Nat) : ℚ) * 100 ∧
    (0 : ℚ) < ((max s.total_requests 1 : Nat) : ℚ) ∧
    (print_results s).rps =
      (s.total_requests : ℚ) / max (print_results s).duration (1 / 10) ∧
    (0 : ℚ) < max (print_results s).duration (1 / 10) ∧
    ((print_results s).time_summary = none ↔ s.response_times = []) ∧
    (s.response_times = [] ∨ (0 : ℚ) < (s.response_times.length : ℚ)) := by
  refine ⟨rfl, rfl, ?_, rfl, ?_, ?_, ?_⟩
  · exact_mod_cast Nat.lt_of_lt_of_le Nat.zero_lt_one (Nat.le_max_right s.total_requests 1)
  · exact lt_of_lt_of_le (by norm_num) (le_max_right _ _)
  · by_cases h : s.response_times = [] <;> simp [print_results, h]
  · by_cases h : s.response_times = []
    · exact Or.inl h
    · exact Or.inr (by exact_mod_cast List.length_pos.mpr h)

end Dosenv
